import Mathlib

/-!
Verification development for a chat-bot backend (Telegram bot with an
SQLite store and a g4f generation client).

The embedding models:
* the two-table store (`users`, `messages`) as explicit lists of rows,
  with `AUTOINCREMENT` surrogate ids and `CURRENT_TIMESTAMP` defaults
  modelled by explicit counters threaded through a `DBState`;
* the repository operations of `app/database/repository.py`
  (`get_or_create_user`, `create_message`, `get_conversation_history`,
  `get_message_count`, `clear_conversation`) as state transformers,
  under sequential (single-request) execution;
* the generation client of `app/services/ai_service.py`
  (`generate_response` and `_call_g4f` with its model-fallback loop),
  with the remote g4f backend abstracted as a function from a model
  identifier and a message list to an outcome (a raised exception or a
  returned value that may or may not be a non-empty string);
* the text-message pipeline `message_handler` of
  `app/handlers/router.py`, recording its outward effects (replies sent,
  backend invocations, typing action) alongside the final store state.

The SQL query `ORDER BY created_at DESC LIMIT ?` is modelled as a stable
sort by `created_at` descending followed by `take`.
-/

/-- A row of the `users` table:
`id INTEGER PRIMARY KEY AUTOINCREMENT, telegram_id INTEGER UNIQUE NOT NULL,
 username TEXT, created_at TIMESTAMP DEFAULT CURRENT_TIMESTAMP`. -/
structure UserRow where
  id : Nat
  telegram_id : Int
  username : Option String
  created_at : Nat
deriving DecidableEq

/-- A row of the `messages` table:
`id INTEGER PRIMARY KEY AUTOINCREMENT, user_id INTEGER NOT NULL,
 role TEXT CHECK(role IN ('user','assistant')) NOT NULL, content TEXT NOT NULL,
 created_at TIMESTAMP DEFAULT CURRENT_TIMESTAMP`. -/
structure MessageRow where
  id : Nat
  user_id : Nat
  role : String
  content : String
  created_at : Nat
deriving DecidableEq

/-- The state of the store: both tables in physical (insertion) order,
the next `AUTOINCREMENT` value of each table, and a clock supplying
`CURRENT_TIMESTAMP` values (advanced at each insert). -/
structure DBState where
  users : List UserRow
  messages : List MessageRow
  nextUserId : Nat
  nextMessageId : Nat
  now : Nat
deriving DecidableEq

/-- The store just after `connect` / schema bootstrap: both tables empty,
`AUTOINCREMENT` counters at 1. -/
def emptyDB : DBState := ⟨[], [], 1, 1, 0⟩

/-- `SELECT * FROM users WHERE telegram_id = ?` through `fetch_one`:
the first stored row with the given `telegram_id`, if any. -/
def fetchUserByTg (st : DBState) (tg : Int) : Option UserRow :=
  st.users.find? (fun u => u.telegram_id == tg)

/-- `UserRepository.get_or_create_user`: look the user up by
`telegram_id`; if present return it, otherwise `INSERT` a new row and
re-query by `telegram_id`. -/
def get_or_create_user (st : DBState) (tg : Int) (un : Option String) :
    Option UserRow × DBState :=
  match fetchUserByTg st tg with
  | some u => (some u, st)
  | none =>
    let row : UserRow := ⟨st.nextUserId, tg, un, st.now⟩
    let st1 : DBState :=
      { st with users := st.users ++ [row]
                nextUserId := st.nextUserId + 1
                now := st.now + 1 }
    (fetchUserByTg st1 tg, st1)

/-- `UserRepository.get_user_by_id`: `SELECT * FROM users WHERE id = ?`. -/
def get_user_by_id (st : DBState) (uid : Nat) : Option UserRow :=
  st.users.find? (fun u => u.id == uid)

/-- `MessageRepository.create_message`: `INSERT INTO messages` then read
the created row back via `last_insert_rowid()`. -/
def create_message (st : DBState) (uid : Nat) (role content : String) :
    Option MessageRow × DBState :=
  let row : MessageRow := ⟨st.nextMessageId, uid, role, content, st.now⟩
  let st1 : DBState :=
    { st with messages := st.messages ++ [row]
              nextMessageId := st.nextMessageId + 1
              now := st.now + 1 }
  (st1.messages.find? (fun m => m.id == st.nextMessageId), st1)

/-- Ordering used by `ORDER BY created_at DESC`: newest first. -/
def newestFirst (a b : MessageRow) : Prop := b.created_at ≤ a.created_at

instance : DecidableRel newestFirst := fun a b => by
  unfold newestFirst; infer_instance

instance : IsTotal MessageRow newestFirst :=
  ⟨fun a b => le_total b.created_at a.created_at⟩

instance : IsTrans MessageRow newestFirst :=
  ⟨fun _ _ _ h h' => le_trans h' h⟩

/-- The projection produced by
`SELECT role, content, created_at FROM messages ...`. -/
structure HistoryRow where
  role : String
  content : String
  created_at : Nat
deriving DecidableEq

/-- `MessageRepository.get_conversation_history`:
`SELECT role, content, created_at FROM messages WHERE user_id = ?
 ORDER BY created_at DESC LIMIT ?`. -/
def get_conversation_history (st : DBState) (uid : Nat) (limit : Nat) :
    List HistoryRow :=
  ((List.insertionSort newestFirst
      (st.messages.filter (fun m => m.user_id == uid))).take limit).map
    (fun m => ⟨m.role, m.content, m.created_at⟩)

/-- `MessageRepository.get_message_count`:
`SELECT COUNT(*) FROM messages WHERE user_id = ?`. -/
def get_message_count (st : DBState) (uid : Nat) : Nat :=
  (st.messages.filter (fun m => m.user_id == uid)).length

/-- `MessageRepository.clear_conversation`:
`DELETE FROM messages WHERE user_id = ?`, returning `rowcount > 0`. -/
def clear_conversation (st : DBState) (uid : Nat) : Bool × DBState :=
  let rowcount := st.messages.countP (fun m => m.user_id == uid)
  (decide (0 < rowcount),
   { st with messages := st.messages.filter (fun m => !(m.user_id == uid)) })

/-- One entry of the OpenAI-format message list handed to g4f. -/
structure ChatMsg where
  role : String
  content : String
deriving DecidableEq

/-- Outcome of one `g4f.ChatCompletion.create` call: either an exception
is raised (identified by a numeric code), or a value is returned that is
either a string (possibly empty) or a non-string (`none`). -/
inductive GenOutcome where
  | raises (e : Nat)
  | returns (v : Option String)
deriving DecidableEq

/-- The remote g4f backend, abstracted: outcome of one attempt given a
model identifier and the message list. -/
def Backend : Type := String → List ChatMsg → GenOutcome

/-- `AIService.available_models`, the fixed fallback order. -/
def available_models : List String :=
  ["gpt-3.5-turbo", "gpt-4", "gpt-4-turbo"]

/-- The fixed system instruction of `AIService.generate_response`
(a Python triple-quoted string, kept verbatim). -/
def system_prompt : String :=
  "You are a helpful AI assistant in a Telegram bot. \n            Be concise, friendly, and helpful. \n            Keep responses reasonably short for mobile users."

/-- The fixed user-facing apology returned when generation fails. -/
def apology_message : String :=
  "I apologize, but I'm having trouble processing your request right now. Please try again in a moment. If the problem persists, the administrator has been notified."

/-- Result of `AIService._call_g4f`: the returned text or the raised
aggregate error (carrying `last_exception`, which may be absent), plus
the failures logged via `logger.warning` and the models attempted, in
order. -/
structure CallResult where
  result : Except (Option Nat) String
  log : List (String × Nat)
  attempts : List String

/-- The fallback loop of `AIService._call_g4f`: try each model in order;
a raised exception updates `last_exception`, is logged and the loop
continues; a returned value is accepted only if it is a non-empty string
(`if response and isinstance(response, str)`), otherwise the loop
continues silently; an exhausted list raises carrying `last_exception`. -/
def call_g4f_go (backend : Backend) (msgs : List ChatMsg)
    (lastExc : Option Nat) (log : List (String × Nat))
    (attempts : List String) : List String → CallResult
  | [] => ⟨.error lastExc, log, attempts⟩
  | m :: ms =>
    match backend m msgs with
    | .raises e =>
        call_g4f_go backend msgs (some e) (log ++ [(m, e)]) (attempts ++ [m]) ms
    | .returns none => call_g4f_go backend msgs lastExc log (attempts ++ [m]) ms
    | .returns (some s) =>
        if s ≠ "" then ⟨.ok s, log, attempts ++ [m]⟩
        else call_g4f_go backend msgs lastExc log (attempts ++ [m]) ms

/-- `AIService._call_g4f` applied to its fixed model list. -/
def call_g4f (backend : Backend) (msgs : List ChatMsg) : CallResult :=
  call_g4f_go backend msgs none [] [] available_models

/-- The message list built inside `AIService.generate_response`: system
instruction, then the supplied history (extending by an empty history is
a no-op, matching `if history:`), then the current user message. -/
def buildMessages (message : String) (history : List ChatMsg) : List ChatMsg :=
  ([ChatMsg.mk "system" system_prompt] ++ history) ++ [ChatMsg.mk "user" message]

/-- Python's `str.strip()` on a character list: drop whitespace from
both ends. -/
def stripChars (l : List Char) : List Char :=
  ((l.dropWhile Char.isWhitespace).reverse.dropWhile Char.isWhitespace).reverse

/-- Python's `str.strip()`: the string without leading and trailing
whitespace. -/
def pyStrip (s : String) : String := ⟨stripChars s.data⟩

/-- `AIService.generate_response`: build the message list, call
`_call_g4f`, strip the response (`response.strip()`); any exception is
swallowed and replaced by the fixed apology string. -/
def generate_response (backend : Backend) (message : String)
    (history : List ChatMsg) : String :=
  match (call_g4f backend (buildMessages message history)).result with
  | .ok response => pyStrip response
  | .error _ => apology_message

/-- Outward effects and final state of one `message_handler` invocation:
the final store, the texts sent back via `message.answer`, the message
lists handed to the generation backend, and whether the typing action
was requested. -/
structure HandlerResult where
  st : DBState
  replies : List String
  aiCalls : List (List ChatMsg)
  typing : Bool

/-- `message_handler` of `app/handlers/router.py` for one inbound text
message: reject blank text with no effects; get-or-create the user; save
the inbound text with role `user`; fetch the last 10 history rows and
reverse them to oldest-first OpenAI format; send the typing action; call
`generate_response`; save the reply with role `assistant`; answer with
the reply. `.error ()` marks the (unreachable) raise on a missing user
row. -/
def message_handler (st : DBState) (text : String) (tg : Int)
    (un : Option String) (backend : Backend) : Except Unit HandlerResult :=
  if pyStrip text = "" then .ok ⟨st, [], [], false⟩
  else
    match get_or_create_user st tg un with
    | (none, _) => .error ()
    | (some user, st1) =>
      let st2 := (create_message st1 user.id "user" text).2
      let history := get_conversation_history st2 user.id 10
      let formatted := history.reverse.map (fun h => ChatMsg.mk h.role h.content)
      let ai := generate_response backend text formatted
      let st3 := (create_message st2 user.id "assistant" ai).2
      .ok ⟨st3, [ai], [buildMessages text formatted], true⟩

/-- One storage-layer operation on the conversation log, for reasoning
about operation sequences. -/
inductive LogOp where
  | append (u : Nat) (role content : String)
  | clear (u : Nat)
  | history (u : Nat) (limit : Nat)
deriving DecidableEq

/-- Run a sequence of conversation-log operations; `history` is a pure
query (`SELECT`) and leaves the store unchanged. -/
def runOps (st : DBState) : List LogOp → DBState
  | [] => st
  | LogOp.append u r c :: ops => runOps (create_message st u r c).2 ops
  | LogOp.clear u :: ops => runOps (clear_conversation st u).2 ops
  | LogOp.history u n :: ops =>
      runOps ((fun _ => st) (get_conversation_history st u n)) ops

/-- The number of `append` operations for user `u` in a sequence. -/
def countAppends (u : Nat) (ops : List LogOp) : Nat :=
  ops.countP (fun op =>
    match op with
    | LogOp.append u' _ _ => u' == u
    | _ => false)

/-- One attempt fails when the backend raises, or when the returned
value is rejected by `if response and isinstance(response, str)` (a
non-string or an empty string). -/
def failsAttempt (backend : Backend) (msgs : List ChatMsg) (m : String) : Bool :=
  match backend m msgs with
  | .raises _ => true
  | .returns none => true
  | .returns (some s) => s == ""

/-- A completed attempt whose value is rejected (non-string or empty):
the loop advances without logging and without touching
`last_exception`. -/
def isNonTextReturn (o : GenOutcome) : Bool :=
  match o with
  | .raises _ => false
  | .returns none => true
  | .returns (some s) => s == ""

/-- The `logger.warning` entries produced by a run over the given
models: one `(model, exception)` pair per raising attempt, in order. -/
def raisedOf (backend : Backend) (msgs : List ChatMsg) :
    List String → List (String × Nat)
  | [] => []
  | m :: ms =>
      (match backend m msgs with
       | .raises e => [(m, e)]
       | _ => []) ++ raisedOf backend msgs ms

/-- The value of `last_exception` after the given models have all been
attempted and failed, starting from `last`. -/
def lastExcOf (backend : Backend) (msgs : List ChatMsg)
    (last : Option Nat) : List String → Option Nat
  | [] => last
  | m :: ms =>
      lastExcOf backend msgs
        (match backend m msgs with
         | .raises e => some e
         | _ => last) ms

/-- A backend on which every model immediately returns a fixed reply. -/
def hiBackend : Backend := fun _ _ => GenOutcome.returns (some "Hello there!")

/-- A backend whose first model returns an empty string (a rejected,
non-text result) and whose other models reply normally. -/
def emptyThenOkBackend : Backend := fun m _ =>
  if m = "gpt-3.5-turbo" then GenOutcome.returns (some "")
  else GenOutcome.returns (some "ok")

/-- A backend on which every model raises exception 7. -/
def allRaiseBackend : Backend := fun _ _ => GenOutcome.raises 7

/-- A backend on which every model returns a non-string value. -/
def allNonTextBackend : Backend := fun _ _ => GenOutcome.returns none

/-- A backend whose reply carries surrounding whitespace. -/
def paddedBackend : Backend := fun _ _ => GenOutcome.returns (some "  hi  ")

/-- A sample populated store: two users, three messages (two for user 1,
one for user 2). -/
def sampleDB : DBState :=
  ⟨[⟨1, 10, none, 0⟩, ⟨2, 20, none, 1⟩],
   [⟨1, 1, "user", "a", 2⟩, ⟨2, 2, "user", "b", 3⟩, ⟨3, 1, "assistant", "c", 4⟩],
   3, 4, 5⟩

/-- A sample conversation-log operation sequence: three appends for user
1 interleaved with a `history` query and an append for user 2. -/
def sampleOps : List LogOp :=
  [.append 1 "user" "a", .history 1 5, .append 1 "assistant" "b",
   .append 2 "user" "c", .history 1 1, .append 1 "user" "d"]

lemma get_message_count_create_message (st : DBState) (u' : Nat)
    (r c : String) (u : Nat) :
    get_message_count (create_message st u' r c).2 u =
      get_message_count st u + if u' = u then 1 else 0 := by
  by_cases h : u' = u <;>
    simp [get_message_count, create_message, List.filter_append, h]

lemma get_message_count_clear_conversation (st : DBState) (u' u : Nat)
    (h : u' ≠ u) :
    get_message_count (clear_conversation st u').2 u = get_message_count st u := by
  simp only [get_message_count, clear_conversation]
  rw [List.filter_filter]
  congr 1
  apply List.filter_congr
  intro m _
  by_cases hm : m.user_id = u
  · subst hm
    simp [Ne.symm h]
  · simp [hm]

/-- Claim C5: for every user and every limit N, `history(user_id, N)`
returns at most N rows, ordered newest-first (non-increasing
`created_at`), and reversing the returned sequence yields messages in
non-decreasing creation order. -/
theorem get_conversation_history_window (st : DBState) (uid limit : Nat) :
    (get_conversation_history st uid limit).length ≤ limit ∧
    (get_conversation_history st uid limit).Pairwise
      (fun a b => b.created_at ≤ a.created_at) ∧
    (get_conversation_history st uid limit).reverse.Pairwise
      (fun a b => a.created_at ≤ b.created_at) := by
  have hs : (List.insertionSort newestFirst
      (st.messages.filter (fun m => m.user_id == uid))).Pairwise newestFirst :=
    List.sorted_insertionSort newestFirst _
  have ht : ((List.insertionSort newestFirst
      (st.messages.filter (fun m => m.user_id == uid))).take limit).Pairwise
        newestFirst :=
    hs.sublist (List.take_sublist limit _)
  have hp : (get_conversation_history st uid limit).Pairwise
      (fun a b => b.created_at ≤ a.created_at) :=
    ht.map _ (fun _ _ hab => hab)
  refine ⟨?_, hp, ?_⟩
  · simp [get_conversation_history]
  · rw [List.pairwise_reverse]
    exact hp

/-- Claim C7: `clear(user_id)` deletes all Message rows of that user,
leaves every other user's Message rows and all User rows unchanged, and
returns true iff at least one row was removed. -/
theorem clear_conversation_frame (st : DBState) (uid : Nat) :
    (clear_conversation st uid).2.messages.filter
        (fun m => m.user_id == uid) = [] ∧
    (∀ u', u' ≠ uid →
      (clear_conversation st uid).2.messages.filter (fun m => m.user_id == u')
        = st.messages.filter (fun m => m.user_id == u')) ∧
    (clear_conversation st uid).2.users = st.users ∧
    ((clear_conversation st uid).1 = true ↔
      ∃ m ∈ st.messages, m.user_id = uid) := by
  refine ⟨?_, ?_, rfl, ?_⟩
  · simp only [clear_conversation]
    rw [List.filter_filter]
    simp
  · intro u' h
    simp only [clear_conversation]
    rw [List.filter_filter]
    apply List.filter_congr
    intro m _
    by_cases hm : m.user_id = u'
    · subst hm
      simp [h]
    · simp [hm]
  · simp [clear_conversation, List.countP_pos_iff]

/-- Witness for C7 on the sample store, clearing user 1 and checking
user 2's rows and the returned flag. -/
theorem clear_conversation_frame_witness :
    ((clear_conversation sampleDB 1).2.messages.filter
        (fun m => m.user_id == (2 : Nat))
      = sampleDB.messages.filter (fun m => m.user_id == (2 : Nat))) ∧
    ((clear_conversation sampleDB 1).1 = true ↔
      ∃ m ∈ sampleDB.messages, m.user_id = 1) ∧
    (clear_conversation sampleDB 1).1 = true :=
  ⟨(clear_conversation_frame sampleDB 1).2.1 2 (by decide),
   (clear_conversation_frame sampleDB 1).2.2.2, by decide⟩

/-- Claim C1: for a new external identity, `get_or_create` returns the
freshly inserted row, creates exactly that one row, and a second call
with the same identity returns the same row (hence the same internal
id) and changes nothing, leaving exactly one row for that
`telegram_id`; for an existing identity both calls return the stored
row and change nothing. -/
theorem get_or_create_user_idempotent (st : DBState) (tg : Int)
    (un un' : Option String) :
    (fetchUserByTg st tg = none →
      (get_or_create_user st tg un).1 = some ⟨st.nextUserId, tg, un, st.now⟩ ∧
      (get_or_create_user st tg un).2.users
        = st.users ++ [⟨st.nextUserId, tg, un, st.now⟩] ∧
      (get_or_create_user (get_or_create_user st tg un).2 tg un').1
        = some ⟨st.nextUserId, tg, un, st.now⟩ ∧
      (get_or_create_user (get_or_create_user st tg un).2 tg un').2
        = (get_or_create_user st tg un).2 ∧
      (get_or_create_user (get_or_create_user st tg un).2 tg un').2.users.countP
          (fun u => u.telegram_id == tg) = 1) ∧
    (∀ u, fetchUserByTg st tg = some u →
      get_or_create_user st tg un = (some u, st) ∧
      get_or_create_user st tg un' = (some u, st)) := by
  constructor
  · intro h
    have hfind : fetchUserByTg
        { st with users := st.users ++ [⟨st.nextUserId, tg, un, st.now⟩]
                  nextUserId := st.nextUserId + 1
                  now := st.now + 1 } tg
          = some ⟨st.nextUserId, tg, un, st.now⟩ := by
      simp only [fetchUserByTg] at h ⊢
      rw [List.find?_append, h]
      simp
    have h1 : get_or_create_user st tg un =
        (some ⟨st.nextUserId, tg, un, st.now⟩,
         { st with users := st.users ++ [⟨st.nextUserId, tg, un, st.now⟩]
                   nextUserId := st.nextUserId + 1
                   now := st.now + 1 }) := by
      simp [get_or_create_user, h, hfind]
    have hcount : (st.users ++ [(⟨st.nextUserId, tg, un, st.now⟩ : UserRow)]).countP
        (fun u => u.telegram_id == tg) = 1 := by
      rw [List.countP_append]
      have h0 : st.users.countP (fun u => u.telegram_id == tg) = 0 := by
        rw [List.countP_eq_zero]
        intro a ha
        have := List.find?_eq_none.mp h a ha
        simpa using this
      simp [h0]
    rw [h1]
    refine ⟨rfl, rfl, ?_, ?_, ?_⟩ <;>
      simp [get_or_create_user, hfind, hcount]
  · intro u hu
    constructor <;> rw [get_or_create_user, hu]

/-- Witness for C1: a fresh identity (42) against the sample store. -/
theorem get_or_create_user_idempotent_witness :
    (get_or_create_user sampleDB 42 (some "alice")).1
        = some ⟨3, 42, some "alice", 5⟩ ∧
    (get_or_create_user (get_or_create_user sampleDB 42 (some "alice")).2
        42 (some "bob")).2
      = (get_or_create_user sampleDB 42 (some "alice")).2 ∧
    (get_or_create_user (get_or_create_user sampleDB 42 (some "alice")).2
        42 (some "bob")).2.users.countP (fun u => u.telegram_id == (42 : Int)) = 1 := by
  have h := (get_or_create_user_idempotent sampleDB 42 (some "alice")
      (some "bob")).1 (by decide)
  exact ⟨h.1, h.2.2.2.1, h.2.2.2.2⟩

/-- Claim C8: `count(user_id)` equals its previous value plus the number
of `append` operations for that user in any operation sequence that
contains no `clear` for that user; `history` queries (with any limit)
leave it unchanged. -/
theorem get_message_count_tracks_appends (st : DBState) (u : Nat)
    (ops : List LogOp) (h : LogOp.clear u ∉ ops) :
    get_message_count (runOps st ops) u
      = get_message_count st u + countAppends u ops := by
  induction ops generalizing st with
  | nil => simp [runOps, countAppends]
  | cons op ops ih =>
    have h2 : LogOp.clear u ∉ ops := fun hm => h (List.mem_cons_of_mem _ hm)
    cases op with
    | append u' r c =>
        rw [runOps, ih _ h2, get_message_count_create_message]
        simp only [countAppends, List.countP_cons]
        by_cases hu : u' = u
        · simp [hu, countAppends]
          omega
        · simp [hu, countAppends]
    | clear u' =>
        have hne : u' ≠ u := by
          intro he
          subst he
          exact h (List.mem_cons_self _ _)
        rw [runOps, ih _ h2, get_message_count_clear_conversation st u' u hne]
        simp [countAppends, List.countP_cons]
    | history u' n =>
        rw [runOps, ih _ h2]
        simp [countAppends, List.countP_cons]

/-- Witness for C8: the sample operation sequence adds three messages
for user 1 to the empty store, independent of the interleaved `history`
queries. -/
theorem get_message_count_tracks_appends_witness :
    get_message_count (runOps emptyDB sampleOps) 1
      = get_message_count emptyDB 1 + countAppends 1 sampleOps ∧
    get_message_count (runOps emptyDB sampleOps) 1 = 3 :=
  ⟨get_message_count_tracks_appends emptyDB 1 sampleOps (by decide), by decide⟩

lemma call_g4f_go_fail_cons (backend : Backend) (msgs : List ChatMsg)
    (last : Option Nat) (lg : List (String × Nat)) (att : List String)
    (m : String) (ms : List String)
    (h : failsAttempt backend msgs m = true) :
    call_g4f_go backend msgs last lg att (m :: ms) =
      call_g4f_go backend msgs
        (match backend m msgs with
         | .raises e => some e
         | _ => last)
        (lg ++ raisedOf backend msgs [m]) (att ++ [m]) ms := by
  unfold failsAttempt at h
  cases hb : backend m msgs with
  | raises e => simp [call_g4f_go, hb, raisedOf]
  | returns v =>
    cases v with
    | none => simp [call_g4f_go, hb, raisedOf]
    | some s =>
      rw [hb] at h
      have hs : s = "" := by simpa using h
      subst hs
      simp [call_g4f_go, hb, raisedOf]

lemma call_g4f_go_success_cons (backend : Backend) (msgs : List ChatMsg)
    (last : Option Nat) (lg : List (String × Nat)) (att : List String)
    (m : String) (ms : List String) (s : String)
    (hm : backend m msgs = .returns (some s)) (hs : s ≠ "") :
    call_g4f_go backend msgs last lg att (m :: ms) = ⟨.ok s, lg, att ++ [m]⟩ := by
  simp [call_g4f_go, hm, hs]

lemma call_g4f_go_all_fail (backend : Backend) (msgs : List ChatMsg) :
    ∀ ms last lg att, (∀ m ∈ ms, failsAttempt backend msgs m = true) →
      call_g4f_go backend msgs last lg att ms =
        ⟨.error (lastExcOf backend msgs last ms),
         lg ++ raisedOf backend msgs ms, att ++ ms⟩ := by
  intro ms
  induction ms with
  | nil => intro last lg att _; simp [call_g4f_go, lastExcOf, raisedOf]
  | cons m ms ih =>
    intro last lg att h
    rw [call_g4f_go_fail_cons backend msgs last lg att m ms
          (h m (List.mem_cons_self _ _))]
    rw [ih _ _ _ (fun m' hm' => h m' (List.mem_cons_of_mem _ hm'))]
    cases hb : backend m msgs <;>
      simp [lastExcOf, raisedOf, hb, List.append_assoc]

lemma call_g4f_go_skip_failing (backend : Backend) (msgs : List ChatMsg) :
    ∀ pre last lg att rest, (∀ m ∈ pre, failsAttempt backend msgs m = true) →
      call_g4f_go backend msgs last lg att (pre ++ rest) =
        call_g4f_go backend msgs (lastExcOf backend msgs last pre)
          (lg ++ raisedOf backend msgs pre) (att ++ pre) rest := by
  intro pre
  induction pre with
  | nil => intro last lg att rest _; simp [lastExcOf, raisedOf]
  | cons m pre ih =>
    intro last lg att rest h
    rw [List.cons_append,
        call_g4f_go_fail_cons backend msgs last lg att m (pre ++ rest)
          (h m (List.mem_cons_self _ _))]
    rw [ih _ _ _ _ (fun m' hm' => h m' (List.mem_cons_of_mem _ hm'))]
    cases hb : backend m msgs <;>
      simp [lastExcOf, raisedOf, hb, List.append_assoc]

lemma call_g4f_go_attempts_take (backend : Backend) (msgs : List ChatMsg) :
    ∀ ms last lg att,
      ∃ k, (call_g4f_go backend msgs last lg att ms).attempts = att ++ ms.take k := by
  intro ms
  induction ms with
  | nil =>
    intro last lg att
    exact ⟨0, by simp [call_g4f_go]⟩
  | cons m ms ih =>
    intro last lg att
    cases hb : backend m msgs with
    | raises e =>
      obtain ⟨k, hk⟩ := ih (some e) (lg ++ [(m, e)]) (att ++ [m])
      exact ⟨k + 1, by simp [call_g4f_go, hb, hk, List.append_assoc]⟩
    | returns v =>
      cases v with
      | none =>
        obtain ⟨k, hk⟩ := ih last lg (att ++ [m])
        exact ⟨k + 1, by simp [call_g4f_go, hb, hk, List.append_assoc]⟩
      | some s =>
        by_cases hs : s = ""
        · subst hs
          obtain ⟨k, hk⟩ := ih last lg (att ++ [m])
          exact ⟨k + 1, by simp [call_g4f_go, hb, hk, List.append_assoc]⟩
        · exact ⟨1, by simp [call_g4f_go, hb, hs]⟩

lemma call_g4f_go_log_sound (backend : Backend) (msgs : List ChatMsg) :
    ∀ ms last lg att, (∀ p ∈ lg, backend p.1 msgs = .raises p.2) →
      ∀ p ∈ (call_g4f_go backend msgs last lg att ms).log,
        backend p.1 msgs = .raises p.2 := by
  intro ms
  induction ms with
  | nil => intro last lg att hlg; simpa [call_g4f_go] using hlg
  | cons m ms ih =>
    intro last lg att hlg
    cases hb : backend m msgs with
    | raises e =>
      rw [call_g4f_go]
      simp only [hb]
      apply ih
      intro p hp
      rcases List.mem_append.mp hp with h1 | h2
      · exact hlg p h1
      · rcases List.mem_singleton.mp h2 with rfl
        exact hb
    | returns v =>
      cases v with
      | none =>
        rw [call_g4f_go]
        simp only [hb]
        exact ih _ _ _ hlg
      | some s =>
        by_cases hs : s = ""
        · subst hs
          rw [call_g4f_go]
          simp only [hb, ne_eq, not_true_eq_false, if_false]
          exact ih _ _ _ hlg
        · rw [call_g4f_go]
          simp only [hb, ne_eq, hs, not_false_eq_true, if_true]
          simpa using hlg

/-- Claim C3 (amended): the fallback loop attempts the models of its
fixed list in order and at most once each (the attempted models are a
duplicate-free initial segment of the list); everything it logs is a
raised failure; and whenever every model before some position fails (by
raising, or by a non-text result, which is skipped without logging) and
that position's model returns a non-empty string, the loop returns that
model's output, logs exactly the raised failures, and stops there. -/
theorem call_g4f_fallback_order (backend : Backend) (msgs : List ChatMsg) :
    (∃ k, (call_g4f backend msgs).attempts = available_models.take k) ∧
    (call_g4f backend msgs).attempts.Nodup ∧
    (∀ p ∈ (call_g4f backend msgs).log, backend p.1 msgs = .raises p.2) ∧
    (∀ pre m post s, available_models = pre ++ m :: post →
      (∀ m' ∈ pre, failsAttempt backend msgs m' = true) →
      backend m msgs = .returns (some s) → s ≠ "" →
      (call_g4f backend msgs).result = .ok s ∧
      (call_g4f backend msgs).log = raisedOf backend msgs pre ∧
      (call_g4f backend msgs).attempts = pre ++ [m]) := by
  obtain ⟨k, hk⟩ := call_g4f_go_attempts_take backend msgs available_models none [] []
  refine ⟨⟨k, by simpa [call_g4f] using hk⟩, ?_, ?_, ?_⟩
  · have : (call_g4f backend msgs).attempts = available_models.take k := by
      simpa [call_g4f] using hk
    rw [this]
    exact (by decide : available_models.Nodup).sublist
      (List.take_sublist k available_models)
  · exact call_g4f_go_log_sound backend msgs available_models none [] []
      (by simp)
  · intro pre m post s heq hfail hm hs
    unfold call_g4f
    rw [heq, call_g4f_go_skip_failing backend msgs pre none [] [] (m :: post) hfail,
        call_g4f_go_success_cons backend msgs _ _ _ m post s hm hs]
    simp

/-- Witness for C3: the first model returns an empty string and is
skipped, the second model's output is returned. -/
theorem call_g4f_fallback_order_witness :
    (call_g4f emptyThenOkBackend []).result = .ok "ok" ∧
    (call_g4f emptyThenOkBackend []).log
      = raisedOf emptyThenOkBackend [] ["gpt-3.5-turbo"] ∧
    (call_g4f emptyThenOkBackend []).attempts = ["gpt-3.5-turbo", "gpt-4"] :=
  (call_g4f_fallback_order emptyThenOkBackend []).2.2.2
    ["gpt-3.5-turbo"] "gpt-4" ["gpt-4-turbo"] "ok"
    (by decide) (by decide) (by decide) (by decide)

/-- Counterexample to C3 as stated: the first model fails with a
non-text result (an empty string), the next model is tried and its
output returned, yet the log is empty — the non-text failure was not
logged. -/
theorem call_g4f_nontext_failure_cex :
    (call_g4f emptyThenOkBackend []).result = .ok "ok" ∧
    (call_g4f emptyThenOkBackend []).attempts = ["gpt-3.5-turbo", "gpt-4"] ∧
    (call_g4f emptyThenOkBackend []).log = [] := by
  refine ⟨rfl, rfl, rfl⟩

/-- Claim C4: if every model of the fixed list fails, `_call_g4f`
raises the aggregate error carrying the final `last_exception` (the
last raised failure, if any), while `generate_response` swallows the
failure and returns the fixed apology string. -/
theorem call_g4f_exhausted_apology (backend : Backend) (msgs : List ChatMsg)
    (message : String) (history : List ChatMsg) :
    ((∀ m ∈ available_models, failsAttempt backend msgs m = true) →
      (call_g4f backend msgs).result
        = .error (lastExcOf backend msgs none available_models)) ∧
    ((∀ m ∈ available_models,
        failsAttempt backend (buildMessages message history) m = true) →
      generate_response backend message history = apology_message) := by
  constructor
  · intro h
    unfold call_g4f
    rw [call_g4f_go_all_fail backend msgs available_models none [] [] h]
  · intro h
    unfold generate_response call_g4f
    rw [call_g4f_go_all_fail backend (buildMessages message history)
          available_models none [] [] h]

/-- Witness for C4: all models raise exception 7; the aggregate error
carries it and the wrapper returns the apology. -/
theorem call_g4f_exhausted_apology_witness :
    (call_g4f allRaiseBackend []).result
      = .error (lastExcOf allRaiseBackend [] none available_models) ∧
    lastExcOf allRaiseBackend [] none available_models = some 7 ∧
    generate_response allRaiseBackend "x" [] = apology_message :=
  ⟨(call_g4f_exhausted_apology allRaiseBackend [] "x" []).1 (by decide),
   by decide,
   (call_g4f_exhausted_apology allRaiseBackend [] "x" []).2 (by decide)⟩

/-- Claim C9: on success, `generate_response` returns the backend's
output with surrounding whitespace stripped. -/
theorem generate_response_strips_ok (backend : Backend) (message : String)
    (history : List ChatMsg) (s : String)
    (h : (call_g4f backend (buildMessages message history)).result
          = Except.ok s) :
    generate_response backend message history = pyStrip s := by
  unfold generate_response
  rw [h]

/-- Witness for C9: a padded backend reply is stripped. -/
theorem generate_response_strips_ok_witness :
    generate_response paddedBackend "x" [] = pyStrip "  hi  " ∧
    generate_response paddedBackend "x" [] = "hi" := by
  have h := generate_response_strips_ok paddedBackend "x" [] "  hi  " rfl
  exact ⟨h, by rw [h]; rfl⟩

/-- Claim C10: an attempt that completes with a rejected (non-string or
empty) value advances the loop without logging and without updating
`last_exception`; if every model does so, the aggregate error raised at
the end carries no underlying exception and the log stays empty. -/
theorem call_g4f_nontext_silent (backend : Backend) (msgs : List ChatMsg) :
    (∀ last lg att m ms, isNonTextReturn (backend m msgs) = true →
      call_g4f_go backend msgs last lg att (m :: ms)
        = call_g4f_go backend msgs last lg (att ++ [m]) ms) ∧
    ((∀ m ∈ available_models, isNonTextReturn (backend m msgs) = true) →
      (call_g4f backend msgs).result = .error none ∧
      (call_g4f backend msgs).log = []) := by
  have step : ∀ last lg att m ms, isNonTextReturn (backend m msgs) = true →
      call_g4f_go backend msgs last lg att (m :: ms)
        = call_g4f_go backend msgs last lg (att ++ [m]) ms := by
    intro last lg att m ms h
    unfold isNonTextReturn at h
    cases hb : backend m msgs with
    | raises e => rw [hb] at h; exact absurd h (by simp)
    | returns v =>
      cases v with
      | none => simp [call_g4f_go, hb]
      | some s =>
        rw [hb] at h
        have hs : s = "" := by simpa using h
        subst hs
        simp [call_g4f_go, hb]
  refine ⟨step, ?_⟩
  intro h
  have all : ∀ ms last lg att, (∀ m ∈ ms, isNonTextReturn (backend m msgs) = true) →
      call_g4f_go backend msgs last lg att ms = ⟨.error last, lg, att ++ ms⟩ := by
    intro ms
    induction ms with
    | nil => intro last lg att _; simp [call_g4f_go]
    | cons m ms ih =>
      intro last lg att hall
      rw [step last lg att m ms (hall m (List.mem_cons_self _ _)),
          ih _ _ _ (fun m' hm' => hall m' (List.mem_cons_of_mem _ hm'))]
      simp
  have := all available_models none [] [] h
  unfold call_g4f
  rw [this]
  exact ⟨rfl, rfl⟩

/-- Witness for C10: every model returns a non-string value; the
aggregate error carries no exception and nothing is logged. -/
theorem call_g4f_nontext_silent_witness :
    (call_g4f allNonTextBackend []).result = .error none ∧
    (call_g4f allNonTextBackend []).log = [] :=
  (call_g4f_nontext_silent allNonTextBackend []).2 (by decide)

set_option maxRecDepth 8000 in
/-- Counterexample to C2 as stated: for inbound text "Hi" from a
brand-new identity, the generation backend is invoked with the system
prompt followed by the user message "Hi" TWICE (once from the stored
history, once appended again as the current message), not by the single
history entry ["Hi"]. -/
theorem message_handler_hi_duplicate_cex :
    (message_handler emptyDB "Hi" 42 none hiBackend).map (fun r => r.aiCalls)
      = Except.ok [[ChatMsg.mk "system" system_prompt,
                    ChatMsg.mk "user" "Hi", ChatMsg.mk "user" "Hi"]] ∧
    (message_handler emptyDB "Hi" 42 none hiBackend).map (fun r => r.aiCalls)
      ≠ Except.ok [[ChatMsg.mk "system" system_prompt,
                    ChatMsg.mk "user" "Hi"]] := by
  have hgo : get_or_create_user emptyDB 42 none
      = (some ⟨1, 42, none, 0⟩, ⟨[⟨1, 42, none, 0⟩], [], 2, 1, 1⟩) := by
    simp [get_or_create_user, fetchUserByTg, emptyDB]
  have h1 : (message_handler emptyDB "Hi" 42 none hiBackend).map
      (fun r => r.aiCalls)
        = Except.ok [[ChatMsg.mk "system" system_prompt,
                      ChatMsg.mk "user" "Hi", ChatMsg.mk "user" "Hi"]] := by
    unfold message_handler
    rw [if_neg (by decide : ¬(pyStrip "Hi" = "")), hgo]
    rfl
  refine ⟨h1, ?_⟩
  rw [h1]
  intro h
  injection h with h
  exact absurd h (by decide)

set_option maxRecDepth 8000 in
/-- Claim C2 (amended): for inbound text "Hi" from a brand-new identity,
exactly one User row is created, one `user`-role Message "Hi" is stored,
the generation client is invoked with the fixed system prompt followed
by the stored history entry "Hi" and then the current message "Hi"
again (the inbound text appears twice in the prompt), the reply is
stored as an `assistant`-role Message, and the reply text is returned. -/
theorem message_handler_hi_pipeline (tg : Int) (un : Option String)
    (backend : Backend) :
    message_handler emptyDB "Hi" tg un backend =
      Except.ok
        ⟨⟨[⟨1, tg, un, 0⟩],
          [⟨1, 1, "user", "Hi", 1⟩,
           ⟨2, 1, "assistant",
             generate_response backend "Hi" [ChatMsg.mk "user" "Hi"], 2⟩],
          2, 3, 3⟩,
         [generate_response backend "Hi" [ChatMsg.mk "user" "Hi"]],
         [[ChatMsg.mk "system" system_prompt, ChatMsg.mk "user" "Hi",
           ChatMsg.mk "user" "Hi"]],
         true⟩ := by
  have hgo : get_or_create_user emptyDB tg un
      = (some ⟨1, tg, un, 0⟩, ⟨[⟨1, tg, un, 0⟩], [], 2, 1, 1⟩) := by
    simp [get_or_create_user, fetchUserByTg, emptyDB]
  unfold message_handler
  rw [if_neg (by decide : ¬(pyStrip "Hi" = "")), hgo]
  rfl

/-- Claim C6: an inbound message whose text is empty or whitespace-only
is rejected up front: the store is untouched, nothing is sent, the
backend is never invoked. -/
theorem message_handler_blank_noop (st : DBState) (text : String) (tg : Int)
    (un : Option String) (backend : Backend) (h : pyStrip text = "") :
    message_handler st text tg un backend = Except.ok ⟨st, [], [], false⟩ := by
  simp [message_handler, h]

/-- Witness for C6: a whitespace-only inbound text. -/
theorem message_handler_blank_noop_witness :
    message_handler sampleDB " " 5 none hiBackend
      = Except.ok ⟨sampleDB, [], [], false⟩ :=
  message_handler_blank_noop sampleDB " " 5 none hiBackend rfl
